import Mathlib

/-!
Verification of the subscription billing engine of the Mastercard_Gateway
repository (pg-backend), as a shallow embedding in Lean 4.

Conventions of the embedding:
* `Time` is an absolute instant, modelled as seconds since the Unix epoch
  (an `Int`).  Go `time.Time` arithmetic: `t.Add(d)` is `t + d` (durations in
  seconds) and `t.AddDate(y, m, d)` is `addDate t y m d`, using the proleptic
  Gregorian calendar in UTC exactly as Go's `time` package normalises civil
  dates (out-of-range months roll into years, out-of-range days roll through
  the month lengths).
* `uuid.UUID` values are modelled as `Nat` identifiers; `uuid.NullUUID` as
  `Option Nat` (the invalid null UUID corresponds to `none`, whose `.UUID`
  field reads as the zero UUID, i.e. `Option.getD · 0`).
* `sql.NullTime` is `Option Time`, `sql.NullString` is `Option String`.
* `float64` money amounts are modelled as `Rat`; the engine only copies
  amounts around (the `%.2f` rendering at the gateway boundary is kept
  abstract: the gateway oracle receives the amount itself).
* the SQL stores are modelled as in-memory lists inside `DB`; the stores'
  `RETURNING id` id assignment is modelled by the `nextId` counter, and
  `time.Now()` is passed in as an explicit `now` argument.
* the payment gateway is an oracle function (`Gateway`): Go's
  `(resp, err) := PayWithToken(...)` with `err != nil` is
  `ChargeResult.transportError`, and a received response is
  `ChargeResult.response`.
-/

/-- Seconds since the Unix epoch (Go `time.Time`, UTC). -/
abbrev Time := Int

/-- Normalise a (year, month) pair so that the month lands in `[1, 12]`,
rolling whole years, as Go's `time.Date` normalisation does. -/
def normYM (y m : Int) : Int × Int :=
  (y + (m - 1) / 12, (m - 1) % 12 + 1)

/-- Day count since 1970-01-01 of a civil (year, month, day) triple, months
normalised first and out-of-range days carried through, matching Go's
`time.Date` semantics. -/
def daysFromCivil (y m d : Int) : Int :=
  let ym := normYM y m
  let yadj := if ym.2 ≤ 2 then ym.1 - 1 else ym.1
  let era := yadj / 400
  let yoe := yadj - era * 400
  let mp := (ym.2 + 9) % 12
  let doy := (153 * mp + 2) / 5 + d - 1
  let doe := yoe * 365 + yoe / 4 - yoe / 100 + doy
  era * 146097 + doe - 719468

/-- Civil date (year, month, day) of a day count since 1970-01-01. -/
def civilFromDays (z : Int) : Int × Int × Int :=
  let z' := z + 719468
  let era := z' / 146097
  let doe := z' - era * 146097
  let yoe := (doe - doe / 1460 + doe / 36524 - doe / 146096) / 365
  let y := yoe + era * 400
  let doy := doe - (365 * yoe + yoe / 4 - yoe / 100)
  let mp := (5 * doy + 2) / 153
  let d := doy - (153 * mp + 2) / 5 + 1
  let m := mp + (if mp < 10 then 3 else -9)
  (if m ≤ 2 then y + 1 else y, m, d)

/-- Go `t.AddDate(years, months, days)`: split the instant into a civil date
and a second-of-day, shift the civil date, renormalise. -/
def addDate (t : Time) (years months days : Int) : Time :=
  let z := t / 86400
  let sod := t % 86400
  let c := civilFromDays z
  daysFromCivil (c.1 + years) (c.2.1 + months) (c.2.2 + days) * 86400 + sod

example : civilFromDays 0 = (1970, 1, 1) := by decide
example : civilFromDays 19723 = (2024, 1, 1) := by decide
example : daysFromCivil 2024 1 1 = 19723 := by decide
example : daysFromCivil 2024 2 29 = 19782 := by decide
example : civilFromDays 19782 = (2024, 2, 29) := by decide
-- 2025-01-31 plus one calendar month normalises to 2025-03-03 (Go semantics)
example : addDate (20119 * 86400) 0 1 0 = 20150 * 86400 := by decide
example : civilFromDays 20119 = (2025, 1, 31) := by decide
example : civilFromDays 20150 = (2025, 3, 3) := by decide
-- adding one day is 86400 seconds across a month boundary
example : addDate (20119 * 86400 + 3600) 0 0 1 = 20120 * 86400 + 3600 := by decide

/-! ## Data model (`internal/models`) -/

/-- Go `models.SubscriptionStatus` (string enum). -/
inductive SubscriptionStatus where
  | active
  | pastDue
  | canceled
  | incomplete
  | incompleteExpired
  | trialing
  | unpaid
deriving DecidableEq, Repr

/-- String value stored in the `status` column for a `SubscriptionStatus`. -/
def SubscriptionStatus.str : SubscriptionStatus → String
  | .active => "active"
  | .pastDue => "past_due"
  | .canceled => "canceled"
  | .incomplete => "incomplete"
  | .incompleteExpired => "incomplete_expired"
  | .trialing => "trialing"
  | .unpaid => "unpaid"

/-- Go `models.BillingAttemptStatus` (string enum). -/
inductive BillingAttemptStatus where
  | pending
  | processing
  | succeeded
  | failed
  | requiresAction
deriving DecidableEq, Repr

/-- Go `models.Plan`. -/
structure Plan where
  id : Nat
  name : String
  amount : Rat
  currency : String
  interval : String
  trialPeriodDays : Int
  isActive : Bool
deriving DecidableEq, Repr

/-- Go `models.Card` (fields the engine reads). -/
structure Card where
  id : Nat
  userId : Nat
  gatewayToken : String
deriving DecidableEq, Repr

/-- Go `models.Subscription`. -/
structure Subscription where
  id : Nat
  userId : Nat
  planId : Option Nat
  cardId : Option Nat
  planName : String
  amount : Rat
  currency : String
  status : SubscriptionStatus
  interval : String
  currentPeriodStart : Option Time
  currentPeriodEnd : Option Time
  trialStart : Option Time
  trialEnd : Option Time
  cancelAtPeriodEnd : Bool
  canceledAt : Option Time
  metadata : List (String × String)
  billingCycleAnchor : Option Time
  nextBillingAt : Time
  createdAt : Time
deriving DecidableEq, Repr

/-- Go `models.BillingAttempt`. -/
structure BillingAttempt where
  id : Nat
  subscriptionId : Nat
  amount : Rat
  currency : String
  status : BillingAttemptStatus
  gatewayTransactionId : Option String
  errorCode : Option String
  errorMessage : Option String
  attemptNumber : Nat
  scheduledAt : Time
  processedAt : Option Time
  createdAt : Time
deriving DecidableEq, Repr

/-- Go `models.Transaction` (fields used by the engine). -/
structure Transaction where
  id : Nat
  userId : Nat
  cardId : Nat
  subscriptionId : Option Nat
  billingAttemptId : Option Nat
  invoiceId : Option String
  amount : Rat
  currency : String
  status : String
  gatewayTransactionId : String
  type : String
  createdAt : Time
deriving DecidableEq, Repr

/-! ## Gateway contract (`services.MastercardService.PayWithToken`) -/

/-- Go `services.PaymentResponse` (fields the billing engine reads). -/
structure PaymentResponse where
  result : String
  gatewayCode : String
  transactionId : String
  transactionStatus : String
deriving DecidableEq, Repr

/-- Outcome of one `PayWithToken` call: either a transport/API error
(`err != nil` in Go) or a decoded gateway response. -/
inductive ChargeResult where
  | transportError (msg : String)
  | response (resp : PaymentResponse)
deriving DecidableEq, Repr

/-- The gateway oracle: token, amount, currency to outcome. -/
abbrev Gateway := String → Rat → String → ChargeResult

/-! ## Stores (`internal/repositories`) -/

/-- The persisted state shared by the three stores. -/
structure DB where
  plans : List Plan
  cards : List Card
  subs : List Subscription
  attempts : List BillingAttempt
  txns : List Transaction
  nextId : Nat
deriving DecidableEq, Repr

/-- Insertion into a list sorted by `le` (models SQL `ORDER BY`). -/
def insertSorted {α : Type} (le : α → α → Bool) (a : α) : List α → List α
  | [] => [a]
  | b :: bs => if le a b then a :: b :: bs else b :: insertSorted le a bs

/-- Insertion sort by `le` (models SQL `ORDER BY`). -/
def sortBy {α : Type} (le : α → α → Bool) : List α → List α
  | [] => []
  | a :: as => insertSorted le a (sortBy le as)

/-- Go `planRepo.GetPlanByID`. -/
def findPlan (db : DB) (id : Nat) : Option Plan :=
  db.plans.find? (fun p => p.id == id)

/-- Go `cardRepo.GetCardByID`. -/
def findCard (db : DB) (id : Nat) : Option Card :=
  db.cards.find? (fun c => c.id == id)

/-- Go `subscriptionRepo.GetSubscriptionByID`. -/
def findSubscription (db : DB) (id : Nat) : Option Subscription :=
  db.subs.find? (fun s => s.id == id)

/-- Go `subscriptionRepo.CreateSubscription` (`INSERT ... RETURNING id`). -/
def createSubscriptionRow (db : DB) (s : Subscription) : DB :=
  { db with subs := db.subs ++ [s], nextId := db.nextId + 1 }

/-- Go `subscriptionRepo.UpdateSubscription`: rewrites every column of the row
with the given id except `id` and `created_at`. -/
def updateSubscription (db : DB) (s : Subscription) : DB :=
  { db with subs := db.subs.map (fun t =>
      if t.id == s.id then { s with createdAt := t.createdAt } else t) }

/-- Go `subscriptionRepo.GetSubscriptionsByUserID` with a status filter
(empty string means no filter). -/
def getSubscriptionsByUserID (db : DB) (userId : Nat) (status : String) : List Subscription :=
  if status ≠ "" then
    db.subs.filter (fun s => s.userId == userId && s.status.str == status)
  else
    db.subs.filter (fun s => s.userId == userId)

/-- Go `subscriptionRepo.GetSubscriptionsDueForBilling`: status is active or
trialing, not cancel-at-period-end, `next_billing_at <= cutoff`, and the trial
(if any) has ended; ordered by `next_billing_at`, capped at 100 rows.
`now` stands for the query's `CURRENT_TIMESTAMP`. -/
def getSubscriptionsDueForBilling (db : DB) (now cutoff : Time) : List Subscription :=
  (sortBy (fun a b => decide (a.nextBillingAt ≤ b.nextBillingAt))
    (db.subs.filter (fun s =>
      (s.status == .active || s.status == .trialing)
      && !s.cancelAtPeriodEnd
      && decide (s.nextBillingAt ≤ cutoff)
      && (match s.trialEnd with
          | none => true
          | some te => decide (te ≤ now))))).take 100

/-- Go `billingRepo.CreateBillingAttempt` (`INSERT ... RETURNING id`). -/
def createBillingAttempt (db : DB) (a : BillingAttempt) : DB :=
  { db with attempts := db.attempts ++ [a], nextId := db.nextId + 1 }

/-- Go `billingRepo.UpdateBillingAttempt`: the SQL `UPDATE` rewrites exactly
the columns `status`, `gateway_transaction_id`, `error_code`, `error_message`,
`attempt_number` and `processed_at` of the row with the given id. -/
def updateBillingAttempt (db : DB) (a : BillingAttempt) : DB :=
  { db with attempts := db.attempts.map (fun b =>
      if b.id == a.id then
        { b with status := a.status, gatewayTransactionId := a.gatewayTransactionId,
                 errorCode := a.errorCode, errorMessage := a.errorMessage,
                 attemptNumber := a.attemptNumber, processedAt := a.processedAt }
      else b) }

/-- Go `billingRepo.GetPendingBillingAttempts`: pending or requires-action
attempts whose `scheduled_at` has arrived, ordered by `scheduled_at`,
capped at `limit`. -/
def getPendingBillingAttempts (db : DB) (now : Time) (limit : Nat) : List BillingAttempt :=
  (sortBy (fun a b => decide (a.scheduledAt ≤ b.scheduledAt))
    (db.attempts.filter (fun a =>
      (a.status == .pending || a.status == .requiresAction)
      && decide (a.scheduledAt ≤ now)))).take limit

/-- Error codes the SQL query treats as permanent declines. -/
def permanentDeclineCodes : List String :=
  ["card_declined", "insufficient_funds", "invalid_card"]

/-- Go `billingRepo.GetFailedBillingAttemptsForRetry`: failed attempts with
`attempt_number < maxAttempts`, `processed_at < olderThan` and an error code
outside the permanent-decline set, ordered by `processed_at`, capped at 50.
SQL three-valued logic: a NULL `processed_at` or NULL `error_code` makes the
predicate non-true, so such rows are never selected. -/
def getFailedBillingAttemptsForRetry (db : DB) (maxAttempts : Nat) (olderThan : Time) :
    List BillingAttempt :=
  (sortBy (fun a b => decide (a.processedAt.getD 0 ≤ b.processedAt.getD 0))
    (db.attempts.filter (fun a =>
      a.status == .failed
      && a.attemptNumber < maxAttempts
      && (match a.processedAt with
          | none => false
          | some t => decide (t < olderThan))
      && (match a.errorCode with
          | none => false
          | some c => !(permanentDeclineCodes.contains c))))).take 50

/-- Go `transactionRepo.CreateSubscriptionTransaction`. -/
def createSubscriptionTransaction (db : DB) (t : Transaction) : DB :=
  { db with txns := db.txns ++ [t], nextId := db.nextId + 1 }

/-! ## Subscription service (`services/subscription_service.go`) -/

/-- Go `subscriptionService.calculateNextBillingDate`: the interval switch
with its documented monthly default. -/
def calculateNextBillingDate (t : Time) (interval : String) : Time :=
  if interval = "day" then addDate t 0 0 1
  else if interval = "week" then addDate t 0 0 7
  else if interval = "month" then addDate t 0 1 0
  else if interval = "year" then addDate t 1 0 0
  else addDate t 0 1 0

/-- Go `subscriptionService.CreateSubscription`.  Returns the Go
`(subscription, error)` pair together with the store state after the call
(the Go stores are external state; an early error return leaves them
untouched). -/
def createSubscription (now : Time) (db : DB) (userId planId cardId : Nat)
    (metadata : List (String × String)) : Except String Subscription × DB :=
  match findPlan db planId with
  | none => (.error "invalid plan", db)
  | some plan =>
    if !plan.isActive then (.error "plan is not active", db)
    else
      match findCard db cardId with
      | none => (.error "invalid card", db)
      | some card =>
        if card.userId != userId then (.error "card does not belong to user", db)
        else
          let existingSubs := getSubscriptionsByUserID db userId "active"
          if existingSubs.any (fun sub =>
              sub.planId.getD 0 == planId && sub.status == .active) then
            (.error "user already has active subscription for this plan", db)
          else
            let base : Subscription :=
              { id := db.nextId, userId := userId, planId := some planId,
                cardId := some cardId, planName := plan.name, amount := plan.amount,
                currency := plan.currency, status := .active, interval := plan.interval,
                currentPeriodStart := none, currentPeriodEnd := none,
                trialStart := none, trialEnd := none, cancelAtPeriodEnd := false,
                canceledAt := none, metadata := metadata, billingCycleAnchor := none,
                nextBillingAt := 0, createdAt := now }
            let sub :=
              if plan.trialPeriodDays > 0 then
                { base with status := .trialing,
                            trialStart := some now,
                            trialEnd := some (addDate now 0 0 plan.trialPeriodDays),
                            nextBillingAt := addDate now 0 0 plan.trialPeriodDays }
              else
                { base with currentPeriodStart := some now,
                            billingCycleAnchor := some now,
                            nextBillingAt := calculateNextBillingDate now plan.interval,
                            currentPeriodEnd :=
                              some (calculateNextBillingDate now plan.interval) }
            let db1 := createSubscriptionRow db sub
            let db2 :=
              if plan.trialPeriodDays == 0 then
                createBillingAttempt db1
                  { id := db1.nextId, subscriptionId := sub.id, amount := plan.amount,
                    currency := plan.currency, status := .pending,
                    gatewayTransactionId := none, errorCode := none, errorMessage := none,
                    attemptNumber := 1, scheduledAt := now, processedAt := none,
                    createdAt := now }
              else db1
            (.ok sub, db2)

/-- Go `subscriptionService.processSingleSubscription`.  Returns the store
state after the call and whether the call returned nil (success). -/
def processSingleSubscription (gw : Gateway) (now : Time) (db : DB)
    (subscription : Subscription) : DB × Bool :=
  let billingAttempt : BillingAttempt :=
    { id := db.nextId, subscriptionId := subscription.id,
      amount := subscription.amount, currency := subscription.currency,
      status := .processing, gatewayTransactionId := none,
      errorCode := none, errorMessage := none, attemptNumber := 1,
      scheduledAt := now, processedAt := some now, createdAt := now }
  let db1 := createBillingAttempt db billingAttempt
  match findCard db1 (subscription.cardId.getD 0) with
  | none =>
    (updateBillingAttempt db1
      { billingAttempt with status := .failed,
                            errorMessage := some "Card not found" }, false)
  | some card =>
    match gw card.gatewayToken subscription.amount subscription.currency with
    | .transportError msg =>
      (updateBillingAttempt db1
        { billingAttempt with status := .failed, errorMessage := some msg }, false)
    | .response paymentResp =>
      if paymentResp.result != "SUCCESS" || paymentResp.gatewayCode != "APPROVED" then
        let db2 := updateBillingAttempt db1
          { billingAttempt with status := .failed,
                                errorCode := some paymentResp.gatewayCode,
                                errorMessage := some paymentResp.result }
        let db3 :=
          if subscription.status == .active then
            updateSubscription db2 { subscription with status := .pastDue }
          else db2
        (db3, false)
      else
        let db2 := updateBillingAttempt db1
          { billingAttempt with status := .succeeded,
                                gatewayTransactionId := some paymentResp.transactionId }
        let transaction : Transaction :=
          { id := db2.nextId, userId := subscription.userId,
            cardId := subscription.cardId.getD 0,
            subscriptionId := some subscription.id,
            billingAttemptId := some billingAttempt.id,
            invoiceId := some ("INV-" ++ toString now),
            amount := subscription.amount, currency := subscription.currency,
            status := paymentResp.transactionStatus,
            gatewayTransactionId := paymentResp.transactionId,
            type := "recurring", createdAt := now }
        let db3 := createSubscriptionTransaction db2 transaction
        let nextAt := calculateNextBillingDate subscription.nextBillingAt
          subscription.interval
        let sub1 := { subscription with
                        currentPeriodStart := some subscription.nextBillingAt,
                        nextBillingAt := nextAt,
                        currentPeriodEnd := some nextAt }
        let sub2 := if sub1.status == .pastDue
                    then { sub1 with status := .active } else sub1
        (updateSubscription db3 sub2, true)

/-- Loop body order of Go `ProcessDueSubscriptions`: per-item failures are
skipped (their store writes stand), successes count, and the loop stops once
`limit` successes are reached. -/
def processDueLoop (gw : Gateway) (now : Time) (limit : Nat) :
    List Subscription → DB → Nat → DB × Nat
  | [], db, count => (db, count)
  | s :: rest, db, count =>
    let r := processSingleSubscription gw now db s
    if r.2 then
      if count + 1 ≥ limit then (r.1, count + 1)
      else processDueLoop gw now limit rest r.1 (count + 1)
    else processDueLoop gw now limit rest r.1 count

/-- Go `subscriptionService.ProcessDueSubscriptions`: select subscriptions due
within the next 5 minutes and drive each through one billing cycle. -/
def processDueSubscriptions (gw : Gateway) (now : Time) (db : DB) (limit : Nat) :
    DB × Nat :=
  let cutoffTime := now + 5 * 60
  let subscriptions := getSubscriptionsDueForBilling db now cutoffTime
  processDueLoop gw now limit subscriptions db 0

/-- Loop body of Go `RetryFailedBilling` for one selected failed attempt. -/
def retryStep (now : Time) (st : DB × Nat) (attempt : BillingAttempt) : DB × Nat :=
  let db := st.1
  let retryCount := st.2
  match findSubscription db attempt.subscriptionId with
  | none => (db, retryCount)
  | some subscription =>
    if subscription.status != .active && subscription.status != .pastDue then
      (db, retryCount)
    else
      let retryDelay? : Option Int :=
        match attempt.attemptNumber with
        | 1 => some 0
        | 2 => some (72 * 3600)
        | 3 => some (168 * 3600)
        | _ => none
      match retryDelay? with
      | none => (db, retryCount)
      | some retryDelay =>
        let newAttempt : BillingAttempt :=
          { id := db.nextId, subscriptionId := attempt.subscriptionId,
            amount := attempt.amount, currency := attempt.currency,
            status := .pending, gatewayTransactionId := none,
            errorCode := none, errorMessage := none,
            attemptNumber := attempt.attemptNumber + 1,
            scheduledAt := now + retryDelay, processedAt := none, createdAt := now }
        let db1 := createBillingAttempt db newAttempt
        let db2 :=
          if attempt.attemptNumber == 1 && subscription.status == .active then
            updateSubscription db1 { subscription with status := .pastDue }
          else db1
        (db2, retryCount + 1)

/-- Go `subscriptionService.RetryFailedBilling`: select retryable failed
attempts older than the 24-hour cooldown and create one follow-up attempt
for each. -/
def retryFailedBilling (now : Time) (maxAttempts : Nat) (db : DB) : DB × Nat :=
  let olderThan := now - 24 * 3600
  let attempts := getFailedBillingAttemptsForRetry db maxAttempts olderThan
  attempts.foldl (retryStep now) (db, 0)

/-! ## Billing service (`services/billing_service.go`) -/

/-- Go `billingService.processBillingAttempt`.  Returns the store state after
the call and whether the call returned nil (success). -/
def processBillingAttempt (gw : Gateway) (now : Time) (db : DB)
    (attempt0 : BillingAttempt) : DB × Bool :=
  let attempt := { attempt0 with status := BillingAttemptStatus.processing,
                                 processedAt := some now }
  let db1 := updateBillingAttempt db attempt
  match findSubscription db1 attempt.subscriptionId with
  | none =>
    (updateBillingAttempt db1
      { attempt with status := .failed,
                     errorMessage := some "Subscription not found" }, false)
  | some subscription =>
    match findCard db1 (subscription.cardId.getD 0) with
    | none =>
      (updateBillingAttempt db1
        { attempt with status := .failed,
                       errorMessage := some "Card not found" }, false)
    | some card =>
      match gw card.gatewayToken attempt.amount attempt.currency with
      | .transportError msg =>
        (updateBillingAttempt db1
          { attempt with status := .failed, errorMessage := some msg }, false)
      | .response paymentResp =>
        if paymentResp.result != "SUCCESS" || paymentResp.gatewayCode != "APPROVED" then
          (updateBillingAttempt db1
            { attempt with status := .failed,
                           errorCode := some paymentResp.gatewayCode,
                           errorMessage := some paymentResp.result }, false)
        else
          let db2 := updateBillingAttempt db1
            { attempt with status := .succeeded,
                           gatewayTransactionId := some paymentResp.transactionId }
          let transaction : Transaction :=
            { id := db2.nextId, userId := subscription.userId,
              cardId := subscription.cardId.getD 0,
              subscriptionId := some subscription.id,
              billingAttemptId := some attempt.id,
              invoiceId := some ("INV-" ++ toString now),
              amount := attempt.amount, currency := attempt.currency,
              status := paymentResp.transactionStatus,
              gatewayTransactionId := paymentResp.transactionId,
              type := "recurring", createdAt := now }
          (createSubscriptionTransaction db2 transaction, true)

/-- Go `billingService.ProcessPendingBillingAttempts`: drain due pending or
requires-action attempts; per-item failures are skipped, successes count. -/
def processPendingBillingAttempts (gw : Gateway) (now : Time) (db : DB)
    (limit : Nat) : DB × Nat :=
  let attempts := getPendingBillingAttempts db now limit
  attempts.foldl (fun st a =>
    let r := processBillingAttempt gw now st.1 a
    (r.1, if r.2 then st.2 + 1 else st.2)) (db, 0)

/-! ## Billing worker (`worker/billing_worker.go`) -/

/-- One scheduled task of the worker: reads and writes the store state,
returning a processed count or a task-level error (Go `(int, error)`). -/
abbrev WorkerTask := DB → DB × Except String Nat

/-- Go `runBillingCycle`'s task loop: every task in the list runs, in order;
an error result is only logged, the remaining tasks still run, and only
successful counts accumulate into the total. -/
def runTasks (tasks : List WorkerTask) (db : DB) : DB × Nat :=
  tasks.foldl (fun st task =>
    let r := task st.1
    match r.2 with
    | .ok n => (r.1, st.2 + n)
    | .error _ => (r.1, st.2)) (db, 0)

/-- Go `BillingWorker.processDueSubscriptions` (limit 100). -/
def dueSubscriptionsTask (gw : Gateway) (now : Time) : WorkerTask := fun db =>
  let r := processDueSubscriptions gw now db 100
  (r.1, .ok r.2)

/-- Go `BillingWorker.processPendingBillingAttempts` (limit 50). -/
def pendingAttemptsTask (gw : Gateway) (now : Time) : WorkerTask := fun db =>
  let r := processPendingBillingAttempts gw now db 50
  (r.1, .ok r.2)

/-- Go `BillingWorker.retryFailedPayments` (maxAttempts 3). -/
def retryFailedPaymentsTask (now : Time) : WorkerTask := fun db =>
  let r := retryFailedBilling now 3 db
  (r.1, .ok r.2)

/-- Go `BillingWorker.runBillingCycle`: the three billing tasks in their fixed
order. -/
def runBillingCycle (gw : Gateway) (now : Time) (db : DB) : DB × Nat :=
  runTasks [dueSubscriptionsTask gw now, pendingAttemptsTask gw now,
            retryFailedPaymentsTask now] db

/-! ## Helper lemmas -/

theorem mem_insertSorted {α : Type} (le : α → α → Bool) (a x : α) (l : List α) :
    x ∈ insertSorted le a l ↔ x = a ∨ x ∈ l := by
  induction l with
  | nil => simp [insertSorted]
  | cons b bs ih =>
    by_cases h : le a b = true
    · simp [insertSorted, h]
    · simp only [insertSorted, h, if_neg, Bool.not_eq_true] at *
      simp [List.mem_cons, ih]
      tauto

theorem mem_sortBy {α : Type} (le : α → α → Bool) (x : α) (l : List α) :
    x ∈ sortBy le l ↔ x ∈ l := by
  induction l with
  | nil => simp [sortBy]
  | cons b bs ih => simp [sortBy, mem_insertSorted, ih]

theorem map_id_of_fixed {α : Type} (l : List α) (f : α → α) (h : ∀ x ∈ l, f x = x) :
    l.map f = l := by
  induction l with
  | nil => rfl
  | cons a l ih =>
    simp only [List.map_cons, h a (List.mem_cons_self a l),
      ih (fun x hx => h x (List.mem_cons_of_mem a hx))]

theorem runTasks_state (tasks : List WorkerTask) (st : DB × Nat) :
    (tasks.foldl (fun st task =>
      let r := task st.1
      match r.2 with
      | .ok n => (r.1, st.2 + n)
      | .error _ => (r.1, st.2)) st).1 =
    tasks.foldl (fun d task => (task d).1) st.1 := by
  induction tasks generalizing st with
  | nil => rfl
  | cons t ts ih =>
    simp only [List.foldl_cons]
    rw [ih]
    cases h : (t st.1).2 <;> simp [h]

/-! ## Claim theorems -/

/-- C8: for every starting time and interval string, advancing the billing
date maps `day` to +1 day, `week` to +7 days, `month` to +1 calendar month,
`year` to +1 calendar year, and every other interval value to +1 calendar
month (the monthly fallback of `calculateNextBillingDate`). -/
theorem C8_interval_advancement (t : Time) (interval : String) :
    calculateNextBillingDate t "day" = addDate t 0 0 1 ∧
    calculateNextBillingDate t "week" = addDate t 0 0 7 ∧
    calculateNextBillingDate t "month" = addDate t 0 1 0 ∧
    calculateNextBillingDate t "year" = addDate t 1 0 0 ∧
    (interval ≠ "day" → interval ≠ "week" → interval ≠ "month" → interval ≠ "year" →
      calculateNextBillingDate t interval = addDate t 0 1 0) := by
  refine ⟨by simp [calculateNextBillingDate], by simp [calculateNextBillingDate],
          by simp [calculateNextBillingDate], by simp [calculateNextBillingDate],
          fun h1 h2 h3 h4 => ?_⟩
  simp [calculateNextBillingDate, h1, h2, h3, h4]

theorem C8_interval_advancement_witness :
    calculateNextBillingDate 0 "fortnight" = addDate 0 0 1 0 :=
  (C8_interval_advancement 0 "fortnight").2.2.2.2
    (by decide) (by decide) (by decide) (by decide)

/-- C9: a billing cycle runs the three tasks in the fixed order
due-subscriptions, pending-attempts, retries (with the worker's limits
100/50/3), and the task runner's state evolution threads every task in the
list regardless of task-level errors, so an error from one task never
prevents the remaining tasks from running. -/
theorem C9_cycle_order_and_error_isolation :
    (∀ (gw : Gateway) (now : Time) (db : DB),
      (runBillingCycle gw now db).1 =
        (retryFailedBilling now 3
          (processPendingBillingAttempts gw now
            (processDueSubscriptions gw now db 100).1 50).1).1) ∧
    (∀ (tasks : List WorkerTask) (db : DB),
      (runTasks tasks db).1 = tasks.foldl (fun d task => (task d).1) db) := by
  constructor
  · intro gw now db
    rfl
  · intro tasks db
    exact runTasks_state tasks (db, 0)

/-! Sample entities used by concrete witnesses and counterexamples. -/

/-- A stored card used by concrete scenarios. -/
def sampleCard : Card := { id := 20, userId := 10, gatewayToken := "tok" }

/-- An active monthly subscription used by concrete scenarios. -/
def sampleActiveSub : Subscription :=
  { id := 1, userId := 10, planId := some 5, cardId := some 20,
    planName := "basic", amount := 1000, currency := "LKR", status := .active,
    interval := "month", currentPeriodStart := none, currentPeriodEnd := none,
    trialStart := none, trialEnd := none, cancelAtPeriodEnd := false,
    canceledAt := none, metadata := [], billingCycleAnchor := none,
    nextBillingAt := 100, createdAt := 0 }

/-- A gateway oracle that approves every charge. -/
def approveGateway : Gateway := fun _ _ _ =>
  .response { result := "SUCCESS", gatewayCode := "APPROVED",
              transactionId := "gw-1", transactionStatus := "CAPTURED" }

/-- A gateway oracle that always fails at the transport level. -/
def transportFailGateway : Gateway := fun _ _ _ =>
  .transportError "connection refused"

/-- C3 counterexample: on a gateway transport error the code marks the
attempt failed with the error text, but it does NOT move the active
subscription to past_due — the subscription row is untouched, refuting the
claim's past_due clause at this concrete input. -/
theorem C3_counterexample :
    (processSingleSubscription transportFailGateway 1000
        { plans := [], cards := [sampleCard], subs := [sampleActiveSub],
          attempts := [], txns := [], nextId := 30 } sampleActiveSub).1.subs =
      [sampleActiveSub] ∧
    sampleActiveSub.status = .active ∧
    (∃ a ∈ (processSingleSubscription transportFailGateway 1000
        { plans := [], cards := [sampleCard], subs := [sampleActiveSub],
          attempts := [], txns := [], nextId := 30 } sampleActiveSub).1.attempts,
      a.status = .failed ∧ a.errorMessage = some "connection refused") ∧
    ¬ (∃ s ∈ (processSingleSubscription transportFailGateway 1000
        { plans := [], cards := [sampleCard], subs := [sampleActiveSub],
          attempts := [], txns := [], nextId := 30 } sampleActiveSub).1.subs,
      s.status = .pastDue) := by
  decide

/-- C3 (amended): when the gateway charge call returns a transport/API error,
`processSingleSubscription` marks the billing attempt failed with the error
text as its error message; the subscription row is left entirely unchanged —
in particular an active subscription is NOT set past_due on this path (that
transition happens only on a gateway decline). -/
theorem C3_transport_error_marks_failed (gw : Gateway) (now : Time) (db : DB)
    (subscription : Subscription) (card : Card) (msg : String)
    (hcard : findCard db (subscription.cardId.getD 0) = some card)
    (hgw : gw card.gatewayToken subscription.amount subscription.currency =
      .transportError msg)
    (hfresh : ∀ a ∈ db.attempts, a.id ≠ db.nextId) :
    (processSingleSubscription gw now db subscription).2 = false ∧
    (processSingleSubscription gw now db subscription).1.subs = db.subs ∧
    (processSingleSubscription gw now db subscription).1.txns = db.txns ∧
    (processSingleSubscription gw now db subscription).1.attempts =
      db.attempts ++
        [{ id := db.nextId, subscriptionId := subscription.id,
           amount := subscription.amount, currency := subscription.currency,
           status := .failed, gatewayTransactionId := none, errorCode := none,
           errorMessage := some msg, attemptNumber := 1,
           scheduledAt := now, processedAt := some now, createdAt := now }] := by
  simp only [findCard] at hcard
  simp only [processSingleSubscription, createBillingAttempt, findCard,
    updateBillingAttempt]
  simp only [hcard, hgw, List.map_append, List.map_cons, List.map_nil]
  refine ⟨trivial, trivial, trivial, ?_⟩
  rw [map_id_of_fixed]
  · simp
  · intro x hx
    have : (x.id == db.nextId) = false := by
      simp [hfresh x hx]
    simp [this]

theorem C3_transport_error_marks_failed_witness :
    (processSingleSubscription transportFailGateway 1000
        { plans := [], cards := [sampleCard], subs := [sampleActiveSub],
          attempts := [], txns := [], nextId := 30 } sampleActiveSub).2 = false ∧
    (processSingleSubscription transportFailGateway 1000
        { plans := [], cards := [sampleCard], subs := [sampleActiveSub],
          attempts := [], txns := [], nextId := 30 } sampleActiveSub).1.subs =
      [sampleActiveSub] :=
  let h := C3_transport_error_marks_failed transportFailGateway 1000
    { plans := [], cards := [sampleCard], subs := [sampleActiveSub],
      attempts := [], txns := [], nextId := 30 } sampleActiveSub sampleCard
    "connection refused" (by decide) (by decide) (by decide)
  ⟨h.1, h.2.1⟩

/-- C2: for a due subscription whose charge is approved by the gateway,
`processSingleSubscription` marks the single created attempt succeeded with
the gateway transaction id, creates exactly one Transaction linked to that
subscription and attempt, and rewrites the subscription row in one update:
`current_period_start` becomes the old `next_billing_at`, `next_billing_at`
advances by one interval, `current_period_end` equals the new
`next_billing_at`, and a past_due status is restored to active. -/
theorem C2_success_advances_period (gw : Gateway) (now : Time) (db : DB)
    (subscription : Subscription) (card : Card) (paymentResp : PaymentResponse)
    (hcard : findCard db (subscription.cardId.getD 0) = some card)
    (hgw : gw card.gatewayToken subscription.amount subscription.currency =
      .response paymentResp)
    (hres : paymentResp.result = "SUCCESS")
    (hcode : paymentResp.gatewayCode = "APPROVED")
    (hfresh : ∀ a ∈ db.attempts, a.id ≠ db.nextId) :
    (processSingleSubscription gw now db subscription).2 = true ∧
    (processSingleSubscription gw now db subscription).1.attempts =
      db.attempts ++
        [{ id := db.nextId, subscriptionId := subscription.id,
           amount := subscription.amount, currency := subscription.currency,
           status := .succeeded,
           gatewayTransactionId := some paymentResp.transactionId,
           errorCode := none, errorMessage := none, attemptNumber := 1,
           scheduledAt := now, processedAt := some now, createdAt := now }] ∧
    (processSingleSubscription gw now db subscription).1.txns =
      db.txns ++
        [{ id := db.nextId + 1, userId := subscription.userId,
           cardId := subscription.cardId.getD 0,
           subscriptionId := some subscription.id,
           billingAttemptId := some db.nextId,
           invoiceId := some ("INV-" ++ toString now),
           amount := subscription.amount, currency := subscription.currency,
           status := paymentResp.transactionStatus,
           gatewayTransactionId := paymentResp.transactionId,
           type := "recurring", createdAt := now }] ∧
    (processSingleSubscription gw now db subscription).1.subs =
      db.subs.map (fun t =>
        if t.id == subscription.id then
          { subscription with
              currentPeriodStart := some subscription.nextBillingAt,
              nextBillingAt := calculateNextBillingDate subscription.nextBillingAt
                subscription.interval,
              currentPeriodEnd := some (calculateNextBillingDate
                subscription.nextBillingAt subscription.interval),
              status := if subscription.status == .pastDue then .active
                        else subscription.status,
              createdAt := t.createdAt }
        else t) := by
  simp only [findCard] at hcard
  simp only [processSingleSubscription, createBillingAttempt, findCard,
    updateBillingAttempt, createSubscriptionTransaction, updateSubscription]
  simp only [hcard, hgw, hres, hcode]
  simp only [bne_self_eq_false, Bool.or_self, Bool.false_eq_true, if_false,
    List.map_append, List.map_cons, List.map_nil]
  refine ⟨trivial, ?_, ?_, ?_⟩
  · rw [map_id_of_fixed]
    · simp
    · intro x hx
      have : (x.id == db.nextId) = false := by simp [hfresh x hx]
      simp [this]
  · simp
  · by_cases h : subscription.status == SubscriptionStatus.pastDue <;> simp [h]

theorem C2_success_advances_period_witness :
    (processSingleSubscription approveGateway 1000
        { plans := [], cards := [sampleCard], subs := [sampleActiveSub],
          attempts := [], txns := [], nextId := 30 } sampleActiveSub).2 = true ∧
    (processSingleSubscription approveGateway 1000
        { plans := [], cards := [sampleCard], subs := [sampleActiveSub],
          attempts := [], txns := [], nextId := 30 } sampleActiveSub).1.subs =
      [{ sampleActiveSub with
           currentPeriodStart := some 100,
           nextBillingAt := calculateNextBillingDate 100 "month",
           currentPeriodEnd := some (calculateNextBillingDate 100 "month") }] :=
  let h := C2_success_advances_period approveGateway 1000
    { plans := [], cards := [sampleCard], subs := [sampleActiveSub],
      attempts := [], txns := [], nextId := 30 } sampleActiveSub sampleCard
    { result := "SUCCESS", gatewayCode := "APPROVED",
      transactionId := "gw-1", transactionStatus := "CAPTURED" }
    (by decide) (by decide) (by decide) (by decide) (by decide)
  ⟨h.1, by rw [h.2.2.2]; decide⟩

/-- C7: for an attempt processed by the pending-attempt path, a successful
charge records one Transaction and marks the attempt succeeded with the
gateway transaction id, but leaves the subscription store entirely unchanged:
no period advancement and no status change (a past_due subscription stays
past_due on this path). -/
theorem C7_pending_path_frame (gw : Gateway) (now : Time) (db : DB)
    (attempt0 : BillingAttempt) (subscription : Subscription) (card : Card)
    (paymentResp : PaymentResponse)
    (hsub : findSubscription db attempt0.subscriptionId = some subscription)
    (hcard : findCard db (subscription.cardId.getD 0) = some card)
    (hgw : gw card.gatewayToken attempt0.amount attempt0.currency =
      .response paymentResp)
    (hres : paymentResp.result = "SUCCESS")
    (hcode : paymentResp.gatewayCode = "APPROVED") :
    (processBillingAttempt gw now db attempt0).2 = true ∧
    (processBillingAttempt gw now db attempt0).1.subs = db.subs ∧
    (processBillingAttempt gw now db attempt0).1.txns =
      db.txns ++
        [{ id := db.nextId, userId := subscription.userId,
           cardId := subscription.cardId.getD 0,
           subscriptionId := some subscription.id,
           billingAttemptId := some attempt0.id,
           invoiceId := some ("INV-" ++ toString now),
           amount := attempt0.amount, currency := attempt0.currency,
           status := paymentResp.transactionStatus,
           gatewayTransactionId := paymentResp.transactionId,
           type := "recurring", createdAt := now }] ∧
    (processBillingAttempt gw now db attempt0).1.attempts =
      db.attempts.map (fun b =>
        if b.id == attempt0.id then
          { b with status := .succeeded,
                   gatewayTransactionId := some paymentResp.transactionId,
                   errorCode := attempt0.errorCode,
                   errorMessage := attempt0.errorMessage,
                   attemptNumber := attempt0.attemptNumber,
                   processedAt := some now }
        else b) ∧
    (∀ (gw2 : Gateway) (now2 : Time) (db2 : DB) (limit2 : Nat),
      processPendingBillingAttempts gw2 now2 db2 limit2 =
        (getPendingBillingAttempts db2 now2 limit2).foldl (fun st a =>
          let r := processBillingAttempt gw2 now2 st.1 a
          (r.1, if r.2 then st.2 + 1 else st.2)) (db2, 0)) := by
  simp only [findSubscription] at hsub
  simp only [findCard] at hcard
  simp only [processBillingAttempt, updateBillingAttempt, findSubscription,
    findCard, createSubscriptionTransaction]
  simp only [hsub, hcard, hgw, hres, hcode]
  simp only [bne_self_eq_false, Bool.or_self, Bool.false_eq_true, if_false]
  refine ⟨trivial, trivial, by simp, ?_, fun _ _ _ _ => rfl⟩
  rw [List.map_map]
  apply List.map_congr_left
  intro b _
  by_cases h : b.id = attempt0.id <;> simp [h]

/-- A pending retry-created attempt used by concrete scenarios. -/
def samplePendingAttempt : BillingAttempt :=
  { id := 2, subscriptionId := 1, amount := 1000, currency := "LKR",
    status := .pending, gatewayTransactionId := none, errorCode := none,
    errorMessage := none, attemptNumber := 2, scheduledAt := 0,
    processedAt := none, createdAt := 0 }

/-- The sample subscription in past_due state. -/
def samplePastDueSub : Subscription :=
  { sampleActiveSub with status := .pastDue }

theorem C7_pending_path_frame_witness :
    (processBillingAttempt approveGateway 1000
        { plans := [], cards := [sampleCard], subs := [samplePastDueSub],
          attempts := [samplePendingAttempt], txns := [], nextId := 30 }
        samplePendingAttempt).2 = true ∧
    (processBillingAttempt approveGateway 1000
        { plans := [], cards := [sampleCard], subs := [samplePastDueSub],
          attempts := [samplePendingAttempt], txns := [], nextId := 30 }
        samplePendingAttempt).1.subs = [samplePastDueSub] :=
  let h := C7_pending_path_frame approveGateway 1000
    { plans := [], cards := [sampleCard], subs := [samplePastDueSub],
      attempts := [samplePendingAttempt], txns := [], nextId := 30 }
    samplePendingAttempt samplePastDueSub sampleCard
    { result := "SUCCESS", gatewayCode := "APPROVED",
      transactionId := "gw-1", transactionStatus := "CAPTURED" }
    (by decide) (by decide) (by decide) (by decide) (by decide)
  ⟨h.1, h.2.1⟩

theorem status_str_active (s : SubscriptionStatus) (h : s.str = "active") :
    s = .active := by
  cases s <;> simp only [SubscriptionStatus.str] at h <;> first
    | rfl
    | exact absurd h (by decide)

/-- C6: creating a subscription from a valid, active plan and a card of the
user yields, when the plan has a positive trial period, a trialing
subscription with `trial_end = next_billing_at = created_at +
trial_period_days` days and no billing attempt; when the trial period is 0,
an active subscription with `next_billing_at = created_at + one interval` and
exactly one pending ordinal-1 billing attempt scheduled at `created_at`. -/
theorem C6_create_subscription (now : Time) (db : DB) (userId planId cardId : Nat)
    (metadata : List (String × String)) (plan : Plan) (card : Card)
    (hplan : findPlan db planId = some plan)
    (hactive : plan.isActive = true)
    (hcard : findCard db cardId = some card)
    (huser : card.userId = userId)
    (hnodup : ∀ sub ∈ db.subs, sub.userId = userId → sub.status = .active →
      sub.planId.getD 0 ≠ planId) :
    ∃ s, (createSubscription now db userId planId cardId metadata).1 = .ok s ∧
      (createSubscription now db userId planId cardId metadata).2.subs =
        db.subs ++ [s] ∧
      (0 < plan.trialPeriodDays →
        s.status = .trialing ∧
        s.trialEnd = some (addDate now 0 0 plan.trialPeriodDays) ∧
        s.nextBillingAt = addDate now 0 0 plan.trialPeriodDays ∧
        (createSubscription now db userId planId cardId metadata).2.attempts =
          db.attempts) ∧
      (plan.trialPeriodDays = 0 →
        s.status = .active ∧
        s.nextBillingAt = calculateNextBillingDate now plan.interval ∧
        s.currentPeriodStart = some now ∧
        s.currentPeriodEnd = some (calculateNextBillingDate now plan.interval) ∧
        (createSubscription now db userId planId cardId metadata).2.attempts =
          db.attempts ++
            [{ id := db.nextId + 1, subscriptionId := db.nextId,
               amount := plan.amount, currency := plan.currency,
               status := .pending, gatewayTransactionId := none,
               errorCode := none, errorMessage := none, attemptNumber := 1,
               scheduledAt := now, processedAt := none, createdAt := now }]) := by
  have hany : (getSubscriptionsByUserID db userId "active").any
      (fun sub => sub.planId.getD 0 == planId && sub.status == .active) = false := by
    rw [List.any_eq_false]
    intro sub hsubmem
    rw [getSubscriptionsByUserID, if_pos (by decide)] at hsubmem
    rw [List.mem_filter] at hsubmem
    obtain ⟨hmem, hcond⟩ := hsubmem
    simp only [Bool.and_eq_true, beq_iff_eq] at hcond
    have hstat : sub.status = .active := status_str_active sub.status hcond.2
    have := hnodup sub hmem hcond.1 hstat
    simp [this, hstat]
  simp only [findPlan] at hplan
  simp only [findCard] at hcard
  simp only [createSubscription, findPlan, findCard, createSubscriptionRow,
    createBillingAttempt]
  simp only [hplan, hactive, hcard, huser, hany]
  simp only [Bool.not_true, Bool.false_eq_true, if_false, bne_self_eq_false]
  by_cases ht : plan.trialPeriodDays > 0
  · have hne : (plan.trialPeriodDays == 0) = false := by
      simp only [beq_eq_false_iff_ne]
      omega
    rw [if_pos ht]
    simp only [hne, Bool.false_eq_true, if_false]
    refine ⟨_, by first | rfl | trivial, by first | rfl | trivial,
      fun _ => by refine ⟨?_, ?_, ?_, ?_⟩ <;> first | rfl | trivial,
      fun h0 => absurd h0 (by omega)⟩
  · rw [if_neg ht]
    by_cases h0 : plan.trialPeriodDays = 0
    · have heq : (plan.trialPeriodDays == 0) = true := by simp [h0]
      simp only [heq, if_true]
      refine ⟨_, by first | rfl | trivial, by first | rfl | trivial,
        fun h => absurd h ht,
        fun _ => by refine ⟨?_, ?_, ?_, ?_, ?_⟩ <;> first | rfl | trivial⟩
    · have hne : (plan.trialPeriodDays == 0) = false := by
        simp only [beq_eq_false_iff_ne]
        omega
      simp only [hne, Bool.false_eq_true, if_false]
      refine ⟨_, by first | rfl | trivial, by first | rfl | trivial,
        fun h => absurd h ht, fun h => absurd h h0⟩

/-- An active plan with a 14-day trial used by concrete scenarios. -/
def sampleTrialPlan : Plan :=
  { id := 5, name := "basic", amount := 1000, currency := "LKR",
    interval := "month", trialPeriodDays := 14, isActive := true }

theorem C6_create_subscription_witness :
    ∃ s, (createSubscription 0
        { plans := [sampleTrialPlan], cards := [sampleCard], subs := [],
          attempts := [], txns := [], nextId := 1 } 10 5 20 []).1 = .ok s ∧
      s.status = .trialing ∧
      (createSubscription 0
        { plans := [sampleTrialPlan], cards := [sampleCard], subs := [],
          attempts := [], txns := [], nextId := 1 } 10 5 20 []).2.attempts = [] := by
  obtain ⟨s, h1, _, h3, _⟩ := C6_create_subscription 0
    { plans := [sampleTrialPlan], cards := [sampleCard], subs := [],
      attempts := [], txns := [], nextId := 1 } 10 5 20 []
    sampleTrialPlan sampleCard (by decide) (by decide) (by decide) (by decide)
    (by intro sub hsub; simp at hsub)
  exact ⟨s, h1, (h3 (by decide)).1, by rw [(h3 (by decide)).2.2.2]⟩

/-- C10: when the user already has an active subscription for the requested
plan, `CreateSubscription` returns the duplicate-subscription error and
leaves the stores unchanged: no subscription row and no billing attempt is
created. -/
theorem C10_duplicate_active_subscription (now : Time) (db : DB)
    (userId planId cardId : Nat) (metadata : List (String × String))
    (plan : Plan) (card : Card) (sub : Subscription)
    (hplan : findPlan db planId = some plan)
    (hactive : plan.isActive = true)
    (hcard : findCard db cardId = some card)
    (huser : card.userId = userId)
    (hmem : sub ∈ db.subs)
    (hsubuser : sub.userId = userId)
    (hsubstat : sub.status = .active)
    (hsubplan : sub.planId.getD 0 = planId) :
    createSubscription now db userId planId cardId metadata =
      (.error "user already has active subscription for this plan", db) := by
  have hany : (getSubscriptionsByUserID db userId "active").any
      (fun s => s.planId.getD 0 == planId && s.status == .active) = true := by
    rw [List.any_eq_true]
    refine ⟨sub, ?_, ?_⟩
    · rw [getSubscriptionsByUserID, if_pos (by decide), List.mem_filter]
      exact ⟨hmem, by simp [hsubuser, hsubstat, SubscriptionStatus.str]⟩
    · simp [hsubplan, hsubstat]
  simp only [findPlan] at hplan
  simp only [findCard] at hcard
  simp only [createSubscription, findPlan, findCard]
  simp only [hplan, hactive, hcard, huser, hany]
  simp

theorem C10_duplicate_active_subscription_witness :
    createSubscription 0
      { plans := [{ sampleTrialPlan with trialPeriodDays := 0 }],
        cards := [sampleCard], subs := [sampleActiveSub],
        attempts := [], txns := [], nextId := 2 } 10 5 20 [] =
    (.error "user already has active subscription for this plan",
      { plans := [{ sampleTrialPlan with trialPeriodDays := 0 }],
        cards := [sampleCard], subs := [sampleActiveSub],
        attempts := [], txns := [], nextId := 2 }) :=
  C10_duplicate_active_subscription 0
    { plans := [{ sampleTrialPlan with trialPeriodDays := 0 }],
      cards := [sampleCard], subs := [sampleActiveSub],
      attempts := [], txns := [], nextId := 2 } 10 5 20 []
    { sampleTrialPlan with trialPeriodDays := 0 } sampleCard sampleActiveSub
    (by decide) (by decide) (by decide) (by decide) (by decide) (by decide)
    (by decide) (by decide)

/-- C4: for a failed attempt selected for retry whose subscription is active
or past_due, the retry loop body creates exactly one new pending attempt with
ordinal `failed ordinal + 1`, the same subscription, amount and currency, and
`scheduled_at = now + delay` with delay 0 / 72h / 168h for failed ordinal
1 / 2 / 3; no attempt is created for ordinal ≥ 4; a first-ordinal failure of a
still-active subscription also moves the subscription to past_due.
`RetryFailedBilling` is exactly this loop body folded over the candidates
selected with the 24-hour cooldown. -/
theorem C4_retry_backoff (now : Time) (db : DB) (count : Nat)
    (attempt : BillingAttempt) (subscription : Subscription)
    (hsub : findSubscription db attempt.subscriptionId = some subscription)
    (hstat : subscription.status = .active ∨ subscription.status = .pastDue) :
    (attempt.attemptNumber = 1 →
      (retryStep now (db, count) attempt).1.attempts = db.attempts ++
        [{ id := db.nextId, subscriptionId := attempt.subscriptionId,
           amount := attempt.amount, currency := attempt.currency,
           status := .pending, gatewayTransactionId := none, errorCode := none,
           errorMessage := none, attemptNumber := attempt.attemptNumber + 1,
           scheduledAt := now, processedAt := none, createdAt := now }] ∧
      (retryStep now (db, count) attempt).2 = count + 1 ∧
      (subscription.status = .active →
        (retryStep now (db, count) attempt).1.subs =
          db.subs.map (fun t =>
            if t.id == subscription.id then
              { subscription with status := .pastDue, createdAt := t.createdAt }
            else t)) ∧
      (subscription.status = .pastDue →
        (retryStep now (db, count) attempt).1.subs = db.subs)) ∧
    (attempt.attemptNumber = 2 →
      (retryStep now (db, count) attempt).1.attempts = db.attempts ++
        [{ id := db.nextId, subscriptionId := attempt.subscriptionId,
           amount := attempt.amount, currency := attempt.currency,
           status := .pending, gatewayTransactionId := none, errorCode := none,
           errorMessage := none, attemptNumber := attempt.attemptNumber + 1,
           scheduledAt := now + 72 * 3600, processedAt := none,
           createdAt := now }] ∧
      (retryStep now (db, count) attempt).1.subs = db.subs ∧
      (retryStep now (db, count) attempt).2 = count + 1) ∧
    (attempt.attemptNumber = 3 →
      (retryStep now (db, count) attempt).1.attempts = db.attempts ++
        [{ id := db.nextId, subscriptionId := attempt.subscriptionId,
           amount := attempt.amount, currency := attempt.currency,
           status := .pending, gatewayTransactionId := none, errorCode := none,
           errorMessage := none, attemptNumber := attempt.attemptNumber + 1,
           scheduledAt := now + 168 * 3600, processedAt := none,
           createdAt := now }] ∧
      (retryStep now (db, count) attempt).1.subs = db.subs ∧
      (retryStep now (db, count) attempt).2 = count + 1) ∧
    (4 ≤ attempt.attemptNumber →
      retryStep now (db, count) attempt = (db, count)) ∧
    (∀ (now2 : Time) (maxAttempts : Nat) (db2 : DB),
      retryFailedBilling now2 maxAttempts db2 =
        (getFailedBillingAttemptsForRetry db2 maxAttempts
          (now2 - 24 * 3600)).foldl (retryStep now2) (db2, 0)) := by
  refine ⟨?_, ?_, ?_, ?_, fun _ _ _ => rfl⟩
  · intro h1
    rcases hstat with h | h <;>
      simp [retryStep, hsub, h, h1, createBillingAttempt, updateSubscription]
  · intro h2
    rcases hstat with h | h <;>
      simp [retryStep, hsub, h, h2, createBillingAttempt, updateSubscription]
  · intro h3
    rcases hstat with h | h <;>
      simp [retryStep, hsub, h, h3, createBillingAttempt, updateSubscription]
  · intro h4
    obtain ⟨m, hm⟩ : ∃ m, attempt.attemptNumber = m + 4 :=
      ⟨attempt.attemptNumber - 4, by omega⟩
    rcases hstat with h | h <;>
      simp [retryStep, hsub, h, hm, createBillingAttempt, updateSubscription]

/-- A failed second-ordinal attempt used by concrete scenarios. -/
def sampleFailedAttempt : BillingAttempt :=
  { id := 2, subscriptionId := 1, amount := 1000, currency := "LKR",
    status := .failed, gatewayTransactionId := none,
    errorCode := some "TIMEOUT", errorMessage := some "FAILURE",
    attemptNumber := 2, scheduledAt := 0, processedAt := some 0, createdAt := 0 }

theorem C4_retry_backoff_witness :
    (retryStep 200000
      ({ plans := [], cards := [sampleCard], subs := [samplePastDueSub],
         attempts := [sampleFailedAttempt], txns := [], nextId := 3 }, 0)
      sampleFailedAttempt).1.attempts =
        [sampleFailedAttempt] ++
          [{ id := 3, subscriptionId := sampleFailedAttempt.subscriptionId,
             amount := sampleFailedAttempt.amount,
             currency := sampleFailedAttempt.currency,
             status := .pending, gatewayTransactionId := none, errorCode := none,
             errorMessage := none,
             attemptNumber := sampleFailedAttempt.attemptNumber + 1,
             scheduledAt := 200000 + 72 * 3600, processedAt := none,
             createdAt := 200000 }] ∧
    (retryStep 200000
      ({ plans := [], cards := [sampleCard], subs := [samplePastDueSub],
         attempts := [sampleFailedAttempt], txns := [], nextId := 3 }, 0)
      sampleFailedAttempt).2 = 0 + 1 := by
  have h := C4_retry_backoff 200000
    { plans := [], cards := [sampleCard], subs := [samplePastDueSub],
      attempts := [sampleFailedAttempt], txns := [], nextId := 3 } 0
    sampleFailedAttempt samplePastDueSub (by decide) (Or.inr (by decide))
  exact ⟨(h.2.1 (by decide)).1, (h.2.1 (by decide)).2.2⟩

/-- Every attempt present after folding the retry loop body over a candidate
list is either an original attempt or a pending follow-up of some candidate
with ordinal one higher and the same subscription, amount and currency. -/
theorem retry_fold_provenance (now : Time) (l : List BillingAttempt)
    (st : DB × Nat) (n : BillingAttempt)
    (hn : n ∈ (l.foldl (retryStep now) st).1.attempts) :
    n ∈ st.1.attempts ∨
    ∃ a ∈ l, n.subscriptionId = a.subscriptionId ∧
      n.attemptNumber = a.attemptNumber + 1 ∧ n.status = .pending ∧
      n.amount = a.amount ∧ n.currency = a.currency := by
  induction l generalizing st with
  | nil => exact Or.inl hn
  | cons a as ih =>
    rw [List.foldl_cons] at hn
    rcases ih (retryStep now st a) hn with hmem | ⟨b, hb, hprops⟩
    · -- trace the single step
      rw [retryStep] at hmem
      rcases hfind : findSubscription st.1 a.subscriptionId with _ | sub
      · simp only [hfind] at hmem
        exact Or.inl hmem
      · simp only [hfind] at hmem
        by_cases hguard : (sub.status != .active && sub.status != .pastDue) = true
        · rw [if_pos hguard] at hmem
          exact Or.inl hmem
        · rw [if_neg hguard] at hmem
          rcases hdelay : (match a.attemptNumber with
              | 1 => some 0
              | 2 => some (72 * 3600)
              | 3 => some (168 * 3600)
              | _ => none : Option Int) with _ | d
          · simp only [hdelay] at hmem
            exact Or.inl hmem
          · simp only [hdelay] at hmem
            by_cases hfirst :
                (a.attemptNumber == 1 && sub.status == .active) = true
            · rw [if_pos hfirst] at hmem
              simp only [updateSubscription, createBillingAttempt,
                List.mem_append, List.mem_singleton] at hmem
              rcases hmem with hmem | hnew
              · exact Or.inl hmem
              · subst hnew
                exact Or.inr ⟨a, List.mem_cons_self a as, rfl, rfl, rfl, rfl, rfl⟩
            · rw [if_neg hfirst] at hmem
              simp only [createBillingAttempt, List.mem_append,
                List.mem_singleton] at hmem
              rcases hmem with hmem | hnew
              · exact Or.inl hmem
              · subst hnew
                exact Or.inr ⟨a, List.mem_cons_self a as, rfl, rfl, rfl, rfl, rfl⟩
    · exact Or.inr ⟨b, List.mem_cons_of_mem a hb, hprops⟩

/-- C5: retry candidates are exactly drawn from stored failed attempts with
`attempt_number < maxAttempts`, a `processed_at` older than the 24-hour
cooldown and an error code outside {card_declined, insufficient_funds,
invalid_card}; and every attempt `RetryFailedBilling` adds to the store is a
follow-up of such a candidate, so a permanently-declined failed attempt never
produces a retry attempt, regardless of ordinal. -/
theorem C5_permanent_declines_never_retried (now : Time) (maxAttempts : Nat)
    (db : DB) :
    (∀ a ∈ getFailedBillingAttemptsForRetry db maxAttempts (now - 24 * 3600),
      a ∈ db.attempts ∧ a.status = .failed ∧ a.attemptNumber < maxAttempts ∧
      (∃ t, a.processedAt = some t ∧ t < now - 24 * 3600) ∧
      (∃ c, a.errorCode = some c ∧ c ≠ "card_declined" ∧
        c ≠ "insufficient_funds" ∧ c ≠ "invalid_card")) ∧
    (∀ n ∈ (retryFailedBilling now maxAttempts db).1.attempts,
      n ∈ db.attempts ∨
      ∃ a ∈ getFailedBillingAttemptsForRetry db maxAttempts (now - 24 * 3600),
        n.subscriptionId = a.subscriptionId ∧
        n.attemptNumber = a.attemptNumber + 1 ∧ n.status = .pending ∧
        n.amount = a.amount ∧ n.currency = a.currency) := by
  constructor
  · intro a ha
    rw [getFailedBillingAttemptsForRetry] at ha
    have ha2 := List.take_subset _ _ ha
    rw [mem_sortBy, List.mem_filter] at ha2
    obtain ⟨hmem, hcond⟩ := ha2
    simp only [Bool.and_eq_true, beq_iff_eq, decide_eq_true_eq] at hcond
    obtain ⟨⟨⟨h1, h2⟩, h3⟩, h4⟩ := hcond
    refine ⟨hmem, h1, h2, ?_, ?_⟩
    · cases hp : a.processedAt with
      | none => simp [hp] at h3
      | some t =>
        simp only [hp] at h3
        exact ⟨t, rfl, of_decide_eq_true h3⟩
    · cases hc : a.errorCode with
      | none => simp [hc] at h4
      | some c =>
        simp only [hc, permanentDeclineCodes] at h4
        simp at h4
        exact ⟨c, rfl, h4.1, h4.2.1, h4.2.2⟩
  · intro n hn
    exact retry_fold_provenance now _ (db, 0) n hn

theorem C5_permanent_declines_never_retried_witness :
    ({ id := 3, subscriptionId := 1, amount := 1000, currency := "LKR",
       status := BillingAttemptStatus.pending, gatewayTransactionId := none,
       errorCode := none, errorMessage := none, attemptNumber := 3,
       scheduledAt := 200000 + 72 * 3600, processedAt := none,
       createdAt := 200000 } : BillingAttempt) ∈
      (retryFailedBilling 200000 4
        { plans := [], cards := [sampleCard], subs := [samplePastDueSub],
          attempts := [sampleFailedAttempt], txns := [],
          nextId := 3 }).1.attempts ∧
    (({ id := 3, subscriptionId := 1, amount := 1000, currency := "LKR",
        status := BillingAttemptStatus.pending, gatewayTransactionId := none,
        errorCode := none, errorMessage := none, attemptNumber := 3,
        scheduledAt := 200000 + 72 * 3600, processedAt := none,
        createdAt := 200000 } : BillingAttempt) ∈
      ({ plans := [], cards := [sampleCard], subs := [samplePastDueSub],
         attempts := [sampleFailedAttempt], txns := [],
         nextId := 3 } : DB).attempts ∨
      ∃ a ∈ getFailedBillingAttemptsForRetry
          { plans := [], cards := [sampleCard], subs := [samplePastDueSub],
            attempts := [sampleFailedAttempt], txns := [], nextId := 3 } 4
          (200000 - 24 * 3600),
        ({ id := 3, subscriptionId := 1, amount := 1000, currency := "LKR",
           status := BillingAttemptStatus.pending, gatewayTransactionId := none,
           errorCode := none, errorMessage := none, attemptNumber := 3,
           scheduledAt := 200000 + 72 * 3600, processedAt := none,
           createdAt := 200000 } : BillingAttempt).subscriptionId =
          a.subscriptionId ∧
        ({ id := 3, subscriptionId := 1, amount := 1000, currency := "LKR",
           status := BillingAttemptStatus.pending, gatewayTransactionId := none,
           errorCode := none, errorMessage := none, attemptNumber := 3,
           scheduledAt := 200000 + 72 * 3600, processedAt := none,
           createdAt := 200000 } : BillingAttempt).attemptNumber =
          a.attemptNumber + 1 ∧
        ({ id := 3, subscriptionId := 1, amount := 1000, currency := "LKR",
           status := BillingAttemptStatus.pending, gatewayTransactionId := none,
           errorCode := none, errorMessage := none, attemptNumber := 3,
           scheduledAt := 200000 + 72 * 3600, processedAt := none,
           createdAt := 200000 } : BillingAttempt).status =
          BillingAttemptStatus.pending ∧
        ({ id := 3, subscriptionId := 1, amount := 1000, currency := "LKR",
           status := BillingAttemptStatus.pending, gatewayTransactionId := none,
           errorCode := none, errorMessage := none, attemptNumber := 3,
           scheduledAt := 200000 + 72 * 3600, processedAt := none,
           createdAt := 200000 } : BillingAttempt).amount = a.amount ∧
        ({ id := 3, subscriptionId := 1, amount := 1000, currency := "LKR",
           status := BillingAttemptStatus.pending, gatewayTransactionId := none,
           errorCode := none, errorMessage := none, attemptNumber := 3,
           scheduledAt := 200000 + 72 * 3600, processedAt := none,
           createdAt := 200000 } : BillingAttempt).currency = a.currency) :=
  ⟨by decide,
   (C5_permanent_declines_never_retried 200000 4
      { plans := [], cards := [sampleCard], subs := [samplePastDueSub],
        attempts := [sampleFailedAttempt], txns := [], nextId := 3 }).2
      { id := 3, subscriptionId := 1, amount := 1000, currency := "LKR",
        status := BillingAttemptStatus.pending, gatewayTransactionId := none,
        errorCode := none, errorMessage := none, attemptNumber := 3,
        scheduledAt := 200000 + 72 * 3600, processedAt := none,
        createdAt := 200000 } (by decide)⟩

/-- A failed first-ordinal attempt with a retryable error code. -/
def sampleFailedFirstAttempt : BillingAttempt :=
  { id := 2, subscriptionId := 1, amount := 1000, currency := "LKR",
    status := .failed, gatewayTransactionId := none,
    errorCode := some "TIMEOUT", errorMessage := some "FAILURE",
    attemptNumber := 1, scheduledAt := 0, processedAt := some 0, createdAt := 0 }

/-- A succeeded second-ordinal attempt for the same subscription cycle. -/
def sampleSucceededAttempt : BillingAttempt :=
  { id := 3, subscriptionId := 1, amount := 1000, currency := "LKR",
    status := .succeeded, gatewayTransactionId := some "tx1",
    errorCode := none, errorMessage := none, attemptNumber := 2,
    scheduledAt := 0, processedAt := some 10, createdAt := 0 }

/-- C1 demonstration: the store holds a succeeded ordinal-2 attempt for
subscription 1 (the cycle already charged: the retry attempt it arose from
succeeded through the pending-attempt path, which advances no period), yet
`RetryFailedBilling` — fed by the still-failed ordinal-1 attempt, which nothing
ever marks as already retried — creates ANOTHER pending ordinal-2 attempt for
the very same cycle, leaving the subscription row untouched.  The succeeded
attempt is not terminal and the cycle's ordinals duplicate (2 appears twice),
refuting the claimed invariant on this concrete store. -/
theorem C1_succeeded_not_terminal :
    (∃ b ∈ ({ plans := [], cards := [sampleCard], subs := [samplePastDueSub],
              attempts := [sampleFailedFirstAttempt, sampleSucceededAttempt],
              txns := [], nextId := 4 } : DB).attempts,
        b.subscriptionId = 1 ∧ b.status = .succeeded ∧ b.attemptNumber = 2) ∧
    (retryFailedBilling 200000 3
      { plans := [], cards := [sampleCard], subs := [samplePastDueSub],
        attempts := [sampleFailedFirstAttempt, sampleSucceededAttempt],
        txns := [], nextId := 4 }).1.subs = [samplePastDueSub] ∧
    (∃ nw ∈ (retryFailedBilling 200000 3
        { plans := [], cards := [sampleCard], subs := [samplePastDueSub],
          attempts := [sampleFailedFirstAttempt, sampleSucceededAttempt],
          txns := [], nextId := 4 }).1.attempts,
        nw ∉ ({ plans := [], cards := [sampleCard], subs := [samplePastDueSub],
                attempts := [sampleFailedFirstAttempt, sampleSucceededAttempt],
                txns := [], nextId := 4 } : DB).attempts ∧
        nw.subscriptionId = 1 ∧ nw.attemptNumber = 2 ∧ nw.status = .pending) ∧
    (retryFailedBilling 200000 3
      { plans := [], cards := [sampleCard], subs := [samplePastDueSub],
        attempts := [sampleFailedFirstAttempt, sampleSucceededAttempt],
        txns := [], nextId := 4 }).1.attempts.length =
      ({ plans := [], cards := [sampleCard], subs := [samplePastDueSub],
         attempts := [sampleFailedFirstAttempt, sampleSucceededAttempt],
         txns := [], nextId := 4 } : DB).attempts.length + 1 := by
  decide
